import Mathlib

/-
Shallow embedding of src/notifier.py (youtube-pushover-notifier).

The script is a linear check-and-notify flow: read configuration from the
process environment, parse the YouTube RSS feed, extract the latest entry,
read the last-seen marker file, compare, and conditionally send one Pushover
POST followed by one marker-file rewrite.

Modelling choices:
  - the process environment is a partial map from variable names to strings
    (Env); os.environ.get with a default becomes envGetD;
  - Python str.strip() becomes pyStrip (drops whitespace at both ends);
  - Python int(...) becomes pyInt?, returning none where int() would raise
    ValueError (optional sign followed by decimal digits, after stripping);
  - the parsed feed is the list feed.entries; a feed object that failed to
    load or lacks the entries attribute behaves exactly like an empty list
    at the single getattr test in main, so both are the empty list here;
  - a feed entry carries its three accessed attributes as Option String;
    an absent attribute makes the corresponding access raise AttributeError,
    recorded in the outcome;
  - the network is a boolean httpOk: requests.post always transmits the
    form data, then raise_for_status raises exactly when the response status
    is non-success, i.e. when httpOk = false;
  - the marker file is Option String: none means the file does not exist
    (open raises FileNotFoundError), some c means it exists with contents c;
  - main returns a RunOutcome recording the marker-file contents after the
    run, every POST performed in order, the lines printed, whether the feed
    fetch and the marker-file read were attempted, and the unhandled
    exception, if one escaped.
-/

namespace Notifier

/-- Environment of the process: a partial map from variable name to value. -/
def Env : Type := String → Option String

/-- Model of os.environ.get(key, dflt). -/
def envGetD (env : Env) (key dflt : String) : String :=
  (env key).getD dflt

/-- Whitespace test used by the str.strip model. -/
def isWs (c : Char) : Bool := c.isWhitespace

/-- Strip a character list at both ends, the list form of str.strip(). -/
def stripList (l : List Char) : List Char :=
  ((l.dropWhile isWs).reverse.dropWhile isWs).reverse

/-- Model of Python str.strip(): drop whitespace at both ends. -/
def pyStrip (s : String) : String :=
  ⟨stripList s.data⟩

/-- Model of Python int(s): strip, optional sign, one or more decimal digits;
none models the ValueError raised on any other shape. -/
def pyInt? (s : String) : Option Int :=
  let t := (pyStrip s).data
  let core : Option (Int × List Char) :=
    match t with
    | [] => none
    | c :: rest =>
        if c = '-' then some (-1, rest)
        else if c = '+' then some (1, rest)
        else some (1, c :: rest)
  match core with
  | none => none
  | some (sign, digits) =>
      if digits ≠ [] && digits.all Char.isDigit then
        some (sign * (digits.foldl (fun a c => a * 10 + (c.toNat - 48)) 0 : Nat))
      else none

/-- Module-level YOUTUBE_CHANNEL_ID = os.environ.get("YOUTUBE_CHANNEL_ID", ""). -/
def YOUTUBE_CHANNEL_ID (env : Env) : String :=
  envGetD env "YOUTUBE_CHANNEL_ID" ""

/-- Module-level FEED_URL: YOUTUBE_FEED_URL if set, else the feed URL derived
from the channel id when that is nonempty, else empty; then stripped. -/
def FEED_URL (env : Env) : String :=
  pyStrip (envGetD env "YOUTUBE_FEED_URL"
    (if YOUTUBE_CHANNEL_ID env ≠ "" then
      "https://www.youtube.com/feeds/videos.xml?channel_id=" ++ YOUTUBE_CHANNEL_ID env
    else ""))

/-- Module-level LAST_SEEN_FILE. -/
def LAST_SEEN_FILE (env : Env) : String :=
  envGetD env "LAST_SEEN_FILE" ""

/-- Module-level PUSHOVER_USER. -/
def PUSHOVER_USER (env : Env) : String :=
  envGetD env "PUSHOVER_USER" ""

/-- Module-level PUSHOVER_TOKEN. -/
def PUSHOVER_TOKEN (env : Env) : String :=
  envGetD env "PUSHOVER_TOKEN" ""

/-- Form data of the POST to api.pushover.net, one field per dict key the
script can set; fields the dict never received are none. -/
structure PushoverRequest where
  token : String
  user : String
  title : String
  message : String
  priority : Int
  retry : Option Int := none
  expire : Option Int := none
  url : Option String := none
  url_title : Option String := none
deriving DecidableEq, Repr

/-- Construction of the data dict in send_pushover_notification, lines 25-40:
base fields, then retry and expire exactly when priority = 2, then url and
url_title exactly when a url argument was supplied. An error is the
ValueError int() raises on a malformed environment value. -/
def buildPushoverData (env : Env) (to_ text : String) (url : Option String) :
    Except String PushoverRequest :=
  match pyInt? (envGetD env "PUSHOVER_PRIORITY" "1") with
  | none => Except.error "ValueError: PUSHOVER_PRIORITY"
  | some priority =>
    let base : PushoverRequest :=
      { token := PUSHOVER_TOKEN env
        user := to_
        title := "📺 New YouTube Video"
        message := text
        priority := priority }
    let afterEmergency : Except String PushoverRequest :=
      if priority = 2 then
        match pyInt? (envGetD env "PUSHOVER_RETRY" "60") with
        | none => Except.error "ValueError: PUSHOVER_RETRY"
        | some r =>
          match pyInt? (envGetD env "PUSHOVER_EXPIRE" "3600") with
          | none => Except.error "ValueError: PUSHOVER_EXPIRE"
          | some ex => Except.ok { base with retry := some r, expire := some ex }
      else Except.ok base
    match afterEmergency with
    | Except.error e => Except.error e
    | Except.ok req =>
      match url with
      | some u => Except.ok { req with url := some u, url_title := some "Open Video" }
      | none => Except.ok req

/-- Model of send_pushover_notification(to, text, url): first component is
the request actually POSTed (none when int() raised before the POST), second
is the outcome seen by the caller: ok when the POST got a success status,
error for the ValueError or the raise_for_status HTTPError. -/
def send_pushover_notification (env : Env) (httpOk : Bool) (to_ text : String)
    (url : Option String) : Option PushoverRequest × Except String Unit :=
  match buildPushoverData env to_ text url with
  | Except.error e => (none, Except.error e)
  | Except.ok req => (some req, if httpOk then Except.ok () else Except.error "HTTPError")

/-- Feed entry with the three attributes main accesses; none models an entry
object lacking that attribute, on which access raises AttributeError. -/
structure Entry where
  yt_videoid : Option String := none
  title : Option String := none
  link : Option String := none
deriving DecidableEq, Repr

/-- Observable outcome of one invocation of main. -/
structure RunOutcome where
  /-- Contents of the marker file after the run; none when it does not exist. -/
  marker : Option String
  /-- Every POST to the Pushover endpoint performed during the run, in order. -/
  posts : List PushoverRequest
  /-- Unhandled exception that escaped main, if any. -/
  raised : Option String
  /-- Lines printed to standard output, in order. -/
  output : List String
  /-- Whether feedparser.parse was invoked. -/
  fetchedFeed : Bool
  /-- Whether opening the marker file for reading was attempted. -/
  readMarker : Bool
deriving DecidableEq, Repr

/-- Python rendering of the last_seen value inside an f-string. -/
def pyOptRepr : Option String → String
  | none => "None"
  | some s => s

/-- The four (name, value) pairs of the required list in main. -/
def requiredSettings (env : Env) : List (String × String) :=
  [("YOUTUBE_FEED_URL or YOUTUBE_CHANNEL_ID", FEED_URL env),
   ("LAST_SEEN_FILE", LAST_SEEN_FILE env),
   ("PUSHOVER_USER", PUSHOVER_USER env),
   ("PUSHOVER_TOKEN", PUSHOVER_TOKEN env)]

/-- Python test `not (value and value.strip())`: true when the value is empty
or strips to empty. -/
def pyBlank (s : String) : Bool :=
  !(s ≠ "" && pyStrip s ≠ "")

/-- The missing list comprehension in main: names of required settings whose
value is absent or blank. -/
def missingRequired (env : Env) : List String :=
  ((requiredSettings env).filter (fun p => pyBlank p.2)).map Prod.fst

/-- Model of main(): parameters are the environment, the entries of the
parsed feed, whether the Pushover POST would get a success status, and the
marker-file contents before the run. -/
def main (env : Env) (feed : List Entry) (httpOk : Bool)
    (marker0 : Option String) : RunOutcome :=
  if missingRequired env ≠ [] then
    { marker := marker0, posts := [], raised := none
      output := ["Missing required env: " ++ String.intercalate ", " (missingRequired env)]
      fetchedFeed := false, readMarker := false }
  else
    match feed with
    | [] =>
      { marker := marker0, posts := [], raised := none
        output := ["No entries found in feed. Exiting without sending notification."]
        fetchedFeed := true, readMarker := false }
    | latest :: _ =>
      match latest.yt_videoid with
      | none =>
        { marker := marker0, posts := [], raised := some "AttributeError: yt_videoid"
          output := [], fetchedFeed := true, readMarker := false }
      | some video_id =>
        match latest.title with
        | none =>
          { marker := marker0, posts := [], raised := some "AttributeError: title"
            output := [], fetchedFeed := true, readMarker := false }
        | some title =>
          match latest.link with
          | none =>
            { marker := marker0, posts := [], raised := some "AttributeError: link"
              output := [], fetchedFeed := true, readMarker := false }
          | some link =>
            let last_seen : Option String := marker0.map pyStrip
            let out0 : List String :=
              (match marker0 with
               | none => ["LAST_SEEN_FILE not found; treating as first run."]
               | some _ => []) ++
              ["Last seen video ID: " ++ pyOptRepr last_seen]
            if some video_id ≠ last_seen then
              let out1 := out0 ++
                ["New video detected. Sending notification and updating LAST_SEEN_FILE."]
              match send_pushover_notification env httpOk (PUSHOVER_USER env) title (some link) with
              | (posted, Except.error e) =>
                { marker := marker0, posts := posted.toList, raised := some e
                  output := out1, fetchedFeed := true, readMarker := true }
              | (posted, Except.ok _) =>
                { marker := some video_id, posts := posted.toList, raised := none
                  output := out1 ++ ["LAST_SEEN_FILE updated."]
                  fetchedFeed := true, readMarker := true }
            else
              { marker := marker0, posts := [], raised := none
                output := out0 ++ ["No new video. Nothing to do."]
                fetchedFeed := true, readMarker := true }

/-- Concrete environment with all four required settings present, used by
witnesses. -/
def envTest : Env := fun k =>
  if k = "YOUTUBE_FEED_URL" then some "https://example.com/feed"
  else if k = "LAST_SEEN_FILE" then some "last_seen.txt"
  else if k = "PUSHOVER_USER" then some "user1"
  else if k = "PUSHOVER_TOKEN" then some "tok1"
  else none

/-- Concrete feed entry used by witnesses. -/
def entryTest : Entry :=
  { yt_videoid := some "xyz789"
    title := some "My New Upload"
    link := some "https://youtu.be/xyz789" }

lemma send_false_snd_error (env : Env) (to_ text : String) (url : Option String) :
    ∃ e, (send_pushover_notification env false to_ text url).2 = Except.error e := by
  unfold send_pushover_notification
  cases buildPushoverData env to_ text url <;> exact ⟨_, rfl⟩

/-- C1: if the notification HTTP call reports a non-success status, main does
not update the marker file: for every environment, feed and marker pre-state,
the marker contents after the run equal the contents before it. -/
theorem marker_unchanged_on_failed_notification (env : Env) (feed : List Entry)
    (marker0 : Option String) :
    (main env feed false marker0).marker = marker0 := by
  unfold main
  repeat' split
  all_goals try rfl
  all_goals try (dsimp only; split <;> rfl)
  all_goals
    rename_i heq
    obtain ⟨e, he⟩ := send_false_snd_error env (PUSHOVER_USER env) _ _
    rw [heq] at he
    simp at he

/-- Request that envTest and entryTest produce, used by witnesses. -/
def reqTest : PushoverRequest :=
  { token := "tok1"
    user := "user1"
    title := "📺 New YouTube Video"
    message := "My New Upload"
    priority := 1
    url := some "https://youtu.be/xyz789"
    url_title := some "Open Video" }

/-- C2: when the configuration is complete and the latest entry carries a
video id differing from the stripped marker contents (also when the marker
file is absent), main performs exactly the one POST built from the entry, and
when that POST succeeds the marker file afterwards holds exactly the new
video id. -/
theorem new_video_one_post_and_marker_update (env : Env) (e : Entry)
    (rest : List Entry) (httpOk : Bool) (marker0 : Option String)
    (vid t l : String) (req : PushoverRequest)
    (hconf : missingRequired env = [])
    (hv : e.yt_videoid = some vid) (ht : e.title = some t) (hl : e.link = some l)
    (hdiff : marker0.map pyStrip ≠ some vid)
    (hreq : buildPushoverData env (PUSHOVER_USER env) t (some l) = Except.ok req) :
    (main env (e :: rest) httpOk marker0).posts = [req] ∧
    (httpOk = true → (main env (e :: rest) httpOk marker0).marker = some vid ∧
      (main env (e :: rest) httpOk marker0).raised = none) := by
  unfold main send_pushover_notification
  simp only [hconf, hv, ht, hl, hreq]
  cases httpOk <;> simp [Ne.symm hdiff]

theorem new_video_one_post_and_marker_update_witness :
    (main envTest [entryTest] true (some "abc123")).posts = [reqTest] ∧
    (main envTest [entryTest] true (some "abc123")).marker = some "xyz789" ∧
    (main envTest [entryTest] true (some "abc123")).raised = none := by
  have h := new_video_one_post_and_marker_update envTest entryTest [] true
    (some "abc123") "xyz789" "My New Upload" "https://youtu.be/xyz789" reqTest
    (by decide) (by decide) (by decide) (by decide) (by decide) rfl
  exact ⟨h.1, h.2 rfl⟩

/-- C3: when the latest entry's video id equals the stripped marker contents,
main performs no POST, leaves the marker file unchanged and raises nothing. -/
theorem same_video_noop (env : Env) (e : Entry) (rest : List Entry)
    (httpOk : Bool) (c vid t l : String)
    (hconf : missingRequired env = [])
    (hv : e.yt_videoid = some vid) (ht : e.title = some t) (hl : e.link = some l)
    (heq : pyStrip c = vid) :
    (main env (e :: rest) httpOk (some c)).posts = [] ∧
    (main env (e :: rest) httpOk (some c)).marker = some c ∧
    (main env (e :: rest) httpOk (some c)).raised = none := by
  unfold main
  simp only [hconf, hv, ht, hl]
  simp [heq]

theorem same_video_noop_witness :
    (main envTest [entryTest] true (some "xyz789")).posts = [] ∧
    (main envTest [entryTest] true (some "xyz789")).marker = some "xyz789" ∧
    (main envTest [entryTest] true (some "xyz789")).raised = none :=
  same_video_noop envTest entryTest [] true "xyz789" "xyz789" "My New Upload"
    "https://youtu.be/xyz789" (by decide) (by decide) (by decide) (by decide)
    (by decide)

/-- C4: a feed with zero entries makes main print the diagnostic line and
return normally, with no POST, no marker-file read and no marker change. -/
theorem empty_feed_noop (env : Env) (httpOk : Bool) (marker0 : Option String)
    (hconf : missingRequired env = []) :
    (main env [] httpOk marker0).posts = [] ∧
    (main env [] httpOk marker0).marker = marker0 ∧
    (main env [] httpOk marker0).readMarker = false ∧
    (main env [] httpOk marker0).raised = none ∧
    (main env [] httpOk marker0).output =
      ["No entries found in feed. Exiting without sending notification."] := by
  unfold main
  simp [hconf]

theorem empty_feed_noop_witness :
    (main envTest [] true (some "abc123")).posts = [] ∧
    (main envTest [] true (some "abc123")).marker = some "abc123" ∧
    (main envTest [] true (some "abc123")).readMarker = false ∧
    (main envTest [] true (some "abc123")).raised = none ∧
    (main envTest [] true (some "abc123")).output =
      ["No entries found in feed. Exiting without sending notification."] :=
  empty_feed_noop envTest true (some "abc123") (by decide)

/-- C5: when a required setting is absent or blank, main reports every missing
setting by name on the single printed line and terminates with no feed fetch,
no marker-file access, no POST and no exception. -/
theorem missing_config_no_side_effects (env : Env) (feed : List Entry)
    (httpOk : Bool) (marker0 : Option String)
    (hmiss : missingRequired env ≠ []) :
    (main env feed httpOk marker0).fetchedFeed = false ∧
    (main env feed httpOk marker0).readMarker = false ∧
    (main env feed httpOk marker0).posts = [] ∧
    (main env feed httpOk marker0).marker = marker0 ∧
    (main env feed httpOk marker0).raised = none ∧
    (main env feed httpOk marker0).output =
      ["Missing required env: " ++ String.intercalate ", " (missingRequired env)] ∧
    ∀ p ∈ requiredSettings env, pyBlank p.2 = true → p.1 ∈ missingRequired env := by
  unfold main
  rw [if_pos hmiss]
  refine ⟨rfl, rfl, rfl, rfl, rfl, rfl, ?_⟩
  intro p hp hb
  exact List.mem_map_of_mem Prod.fst (List.mem_filter.mpr ⟨hp, hb⟩)

theorem missing_config_no_side_effects_witness :
    (main (fun _ => none) [entryTest] true (some "abc123")).fetchedFeed = false ∧
    (main (fun _ => none) [entryTest] true (some "abc123")).readMarker = false ∧
    (main (fun _ => none) [entryTest] true (some "abc123")).posts = [] ∧
    (main (fun _ => none) [entryTest] true (some "abc123")).marker = some "abc123" ∧
    (main (fun _ => none) [entryTest] true (some "abc123")).raised = none ∧
    (main (fun _ => none) [entryTest] true (some "abc123")).output =
      ["Missing required env: " ++ String.intercalate ", "
        (missingRequired (fun _ => none))] ∧
    ∀ p ∈ requiredSettings (fun _ => none), pyBlank p.2 = true →
      p.1 ∈ missingRequired (fun _ => none) :=
  missing_config_no_side_effects (fun _ => none) [entryTest] true (some "abc123")
    (by decide)

lemma buildPushoverData_nonemergency (env : Env) (to_ text : String)
    (url : Option String) (p : Int)
    (hp : pyInt? (envGetD env "PUSHOVER_PRIORITY" "1") = some p) (h2 : p ≠ 2) :
    buildPushoverData env to_ text url = Except.ok
      { token := PUSHOVER_TOKEN env, user := to_, title := "📺 New YouTube Video"
        message := text, priority := p, retry := none, expire := none
        url := url, url_title := url.map (fun _ => "Open Video") } := by
  unfold buildPushoverData
  rw [hp]
  dsimp only
  rw [if_neg h2]
  cases url <;> rfl

lemma buildPushoverData_emergency (env : Env) (to_ text : String)
    (url : Option String) (r ex : Int)
    (hp : pyInt? (envGetD env "PUSHOVER_PRIORITY" "1") = some 2)
    (hr : pyInt? (envGetD env "PUSHOVER_RETRY" "60") = some r)
    (he : pyInt? (envGetD env "PUSHOVER_EXPIRE" "3600") = some ex) :
    buildPushoverData env to_ text url = Except.ok
      { token := PUSHOVER_TOKEN env, user := to_, title := "📺 New YouTube Video"
        message := text, priority := 2, retry := some r, expire := some ex
        url := url, url_title := url.map (fun _ => "Open Video") } := by
  unfold buildPushoverData
  rw [hp]
  dsimp only
  rw [if_pos rfl, hr]
  dsimp only
  rw [he]
  cases url <;> rfl

lemma buildPushoverData_retry_fail (env : Env) (to_ text : String)
    (url : Option String)
    (hp : pyInt? (envGetD env "PUSHOVER_PRIORITY" "1") = some 2)
    (hr : pyInt? (envGetD env "PUSHOVER_RETRY" "60") = none) :
    buildPushoverData env to_ text url = Except.error "ValueError: PUSHOVER_RETRY" := by
  unfold buildPushoverData
  rw [hp]
  dsimp only
  rw [if_pos rfl, hr]

lemma buildPushoverData_expire_fail (env : Env) (to_ text : String)
    (url : Option String) (r : Int)
    (hp : pyInt? (envGetD env "PUSHOVER_PRIORITY" "1") = some 2)
    (hr : pyInt? (envGetD env "PUSHOVER_RETRY" "60") = some r)
    (he : pyInt? (envGetD env "PUSHOVER_EXPIRE" "3600") = none) :
    buildPushoverData env to_ text url = Except.error "ValueError: PUSHOVER_EXPIRE" := by
  unfold buildPushoverData
  rw [hp]
  dsimp only
  rw [if_pos rfl, hr]
  dsimp only
  rw [he]

/-- C6: the request carries the retry and expire fields exactly when the
configured priority is the emergency level 2; at that level they hold the
configured values, falling back to 60 and 3600 when the variables are unset;
at every other priority both fields are absent. -/
theorem emergency_priority_iff_retry_expire (env : Env) (to_ text : String)
    (url : Option String) (p : Int) (req : PushoverRequest)
    (hp : pyInt? (envGetD env "PUSHOVER_PRIORITY" "1") = some p)
    (hreq : buildPushoverData env to_ text url = Except.ok req) :
    req.priority = p ∧
    ((req.retry ≠ none ∨ req.expire ≠ none) ↔ p = 2) ∧
    (p = 2 → req.retry = pyInt? (envGetD env "PUSHOVER_RETRY" "60") ∧
             req.expire = pyInt? (envGetD env "PUSHOVER_EXPIRE" "3600")) ∧
    (p ≠ 2 → req.retry = none ∧ req.expire = none) ∧
    (p = 2 → env "PUSHOVER_RETRY" = none → req.retry = some 60) ∧
    (p = 2 → env "PUSHOVER_EXPIRE" = none → req.expire = some 3600) := by
  by_cases h2 : p = 2
  · subst h2
    cases hr : pyInt? (envGetD env "PUSHOVER_RETRY" "60") with
    | none =>
      rw [buildPushoverData_retry_fail env to_ text url hp hr] at hreq
      exact Except.noConfusion hreq
    | some r =>
      cases he : pyInt? (envGetD env "PUSHOVER_EXPIRE" "3600") with
      | none =>
        rw [buildPushoverData_expire_fail env to_ text url r hp hr he] at hreq
        exact Except.noConfusion hreq
      | some ex =>
        rw [buildPushoverData_emergency env to_ text url r ex hp hr he] at hreq
        injection hreq with h
        subst h
        refine ⟨rfl, by simp, fun _ => ⟨rfl, rfl⟩,
          fun h => absurd rfl h, ?_, ?_⟩
        · intro _ hnone
          have h60 : pyInt? (envGetD env "PUSHOVER_RETRY" "60") = some 60 := by
            unfold envGetD
            rw [hnone]
            decide
          rw [hr] at h60
          exact h60
        · intro _ hnone
          have h3600 : pyInt? (envGetD env "PUSHOVER_EXPIRE" "3600") = some 3600 := by
            unfold envGetD
            rw [hnone]
            decide
          rw [he] at h3600
          exact h3600
  · rw [buildPushoverData_nonemergency env to_ text url p hp h2] at hreq
    injection hreq with h
    subst h
    exact ⟨rfl, by simp [h2], fun h => absurd h h2, fun _ => ⟨rfl, rfl⟩,
      fun h => absurd h h2, fun h => absurd h h2⟩

/-- Environment with emergency priority configured, used by the C6 witness. -/
def envEmergency : Env := fun k =>
  if k = "PUSHOVER_PRIORITY" then some "2" else envTest k

theorem emergency_priority_iff_retry_expire_witness :
    let req := { token := "tok1", user := "user1", title := "📺 New YouTube Video"
                 message := "msg", priority := 2, retry := some 60
                 expire := some 3600, url := none, url_title := none : PushoverRequest }
    req.priority = 2 ∧
    ((req.retry ≠ none ∨ req.expire ≠ none) ↔ (2 : Int) = 2) ∧
    ((2 : Int) = 2 → req.retry = pyInt? (envGetD envEmergency "PUSHOVER_RETRY" "60") ∧
             req.expire = pyInt? (envGetD envEmergency "PUSHOVER_EXPIRE" "3600")) ∧
    ((2 : Int) ≠ 2 → req.retry = none ∧ req.expire = none) ∧
    ((2 : Int) = 2 → envEmergency "PUSHOVER_RETRY" = none → req.retry = some 60) ∧
    ((2 : Int) = 2 → envEmergency "PUSHOVER_EXPIRE" = none → req.expire = some 3600) :=
  emergency_priority_iff_retry_expire envEmergency "user1" "msg" none 2 _
    (by decide) rfl

/-- C9: the POSTed request carries the url field and the fixed url_title
label exactly when a link argument was supplied; with no link neither field
is present. -/
theorem url_included_iff_link (env : Env) (httpOk : Bool) (to_ text : String)
    (url : Option String) (req : PushoverRequest)
    (hreq : buildPushoverData env to_ text url = Except.ok req) :
    (send_pushover_notification env httpOk to_ text url).1 = some req ∧
    req.url = url ∧
    req.url_title = url.map (fun _ => "Open Video") := by
  refine ⟨by unfold send_pushover_notification; rw [hreq], ?_⟩
  unfold buildPushoverData at hreq
  repeat' split at hreq
  all_goals first
    | exact Except.noConfusion hreq
    | (injection hreq with h; subst h; simp_all)

theorem url_included_iff_link_witness :
    (send_pushover_notification envTest true "user1" "My New Upload"
      (some "https://youtu.be/xyz789")).1 = some reqTest ∧
    reqTest.url = some "https://youtu.be/xyz789" ∧
    reqTest.url_title = (some "https://youtu.be/xyz789").map (fun _ => "Open Video") :=
  url_included_iff_link envTest true "user1" "My New Upload"
    (some "https://youtu.be/xyz789") reqTest rfl

/-- Entry carrying none of the expected attributes, used for C7. -/
def entryNoAttrs : Entry := {}

/-- C7 counterexample: a nonempty feed whose entry lacks the video-id
attribute makes main raise an unhandled AttributeError, so the claim that no
unhandled exception escapes on any feed content is false on the code. -/
theorem malformed_entry_raises_unhandled :
    (main envTest [entryNoAttrs] true (some "abc123")).raised =
      some "AttributeError: yt_videoid" := by decide

/-- C7 (amended): a feed that parses to zero entries makes main terminate
gracefully with the diagnostic line and no fault; a nonempty feed whose entry
lacks the video-id attribute instead raises an unhandled AttributeError. -/
theorem feed_fault_handling (env : Env) (httpOk : Bool) (marker0 : Option String)
    (e : Entry) (rest : List Entry)
    (hconf : missingRequired env = []) :
    ((main env [] httpOk marker0).raised = none ∧
     (main env [] httpOk marker0).output =
       ["No entries found in feed. Exiting without sending notification."]) ∧
    (e.yt_videoid = none →
      (main env (e :: rest) httpOk marker0).raised =
        some "AttributeError: yt_videoid") := by
  constructor
  · unfold main
    simp [hconf]
  · intro hnone
    unfold main
    simp [hconf, hnone]

theorem feed_fault_handling_witness :
    ((main envTest [] true (some "abc123")).raised = none ∧
     (main envTest [] true (some "abc123")).output =
       ["No entries found in feed. Exiting without sending notification."]) ∧
    (main envTest [entryNoAttrs] true (some "abc123")).raised =
      some "AttributeError: yt_videoid" :=
  ⟨(feed_fault_handling envTest true (some "abc123") entryNoAttrs [] (by decide)).1,
   (feed_fault_handling envTest true (some "abc123") entryNoAttrs [] (by decide)).2 rfl⟩

/-- C8: an absent marker file is treated as a first run, not as an error:
main prints the first-run line, the absent state differs from every video id,
exactly one notification POST is attempted for the latest entry, and when it
succeeds the run raises nothing. -/
theorem absent_marker_first_run (env : Env) (e : Entry) (rest : List Entry)
    (httpOk : Bool) (vid t l : String) (req : PushoverRequest)
    (hconf : missingRequired env = [])
    (hv : e.yt_videoid = some vid) (ht : e.title = some t) (hl : e.link = some l)
    (hreq : buildPushoverData env (PUSHOVER_USER env) t (some l) = Except.ok req) :
    (none : Option String).map pyStrip ≠ some vid ∧
    "LAST_SEEN_FILE not found; treating as first run." ∈
      (main env (e :: rest) httpOk none).output ∧
    (main env (e :: rest) httpOk none).posts = [req] ∧
    (httpOk = true → (main env (e :: rest) httpOk none).raised = none) := by
  refine ⟨by simp, ?_⟩
  unfold main send_pushover_notification
  simp only [hconf, hv, ht, hl, hreq]
  cases httpOk <;> simp

theorem absent_marker_first_run_witness :
    (none : Option String).map pyStrip ≠ some "xyz789" ∧
    "LAST_SEEN_FILE not found; treating as first run." ∈
      (main envTest [entryTest] true none).output ∧
    (main envTest [entryTest] true none).posts = [reqTest] ∧
    (main envTest [entryTest] true none).raised = none := by
  have h := absent_marker_first_run envTest entryTest [] true "xyz789"
    "My New Upload" "https://youtu.be/xyz789" reqTest (by decide) (by decide)
    (by decide) (by decide) rfl
  exact ⟨h.1, h.2.1, h.2.2.1, h.2.2.2 rfl⟩

lemma stripList_sandwich (w1 v w2 : List Char)
    (h1 : ∀ a ∈ w1, isWs a = true) (h2 : ∀ a ∈ w2, isWs a = true)
    (hv : stripList v = v) :
    stripList (w1 ++ v ++ w2) = v := by
  have hlen2 : v.length ≤ (v.dropWhile isWs).length := by
    conv_lhs => rw [← hv]
    unfold stripList
    rw [List.length_reverse]
    have h := (List.dropWhile_sublist (l := (v.dropWhile isWs).reverse) isWs).length_le
    simpa using h
  have hd : v.dropWhile isWs = v :=
    (List.dropWhile_sublist isWs).eq_of_length_le hlen2
  have hrev : v.reverse.dropWhile isWs = v.reverse := by
    have hrr : (v.reverse.dropWhile isWs).reverse = v := by
      conv_rhs => rw [← hv]
      unfold stripList
      rw [hd]
    calc v.reverse.dropWhile isWs
        = ((v.reverse.dropWhile isWs).reverse).reverse := by rw [List.reverse_reverse]
      _ = v.reverse := by rw [hrr]
  unfold stripList
  rw [List.append_assoc, List.dropWhile_append_of_pos h1]
  cases v with
  | nil =>
    have hw2 : w2.dropWhile isWs = [] := List.dropWhile_eq_nil_iff.mpr h2
    simp [hw2]
  | cons c vtl =>
    have hc : ¬ (isWs c = true) := by
      intro hcw
      have h' := hd
      rw [List.dropWhile_cons_of_pos hcw] at h'
      have hle := (List.dropWhile_sublist (l := vtl) isWs).length_le
      rw [h'] at hle
      simp at hle
    rw [List.cons_append, List.dropWhile_cons_of_neg hc]
    rw [List.reverse_cons, List.reverse_append, List.append_assoc]
    rw [List.dropWhile_append_of_pos (by simpa using h2)]
    rw [← List.reverse_cons, hrev, List.reverse_reverse]

lemma pyStrip_sandwich (w1 v w2 : String)
    (h1 : w1.data.all isWs = true) (h2 : w2.data.all isWs = true)
    (hv : pyStrip v = v) :
    pyStrip (w1 ++ v ++ w2) = v := by
  have hv' : stripList v.data = v.data := by
    have := congrArg String.data hv
    simpa [pyStrip] using this
  unfold pyStrip
  rw [String.data_append, String.data_append]
  rw [stripList_sandwich w1.data v.data w2.data
    (List.all_eq_true.mp h1) (List.all_eq_true.mp h2) hv']

/-- C10: whitespace surrounding the stored id in the marker file is stripped
before the comparison, so such a marker file triggers no POST and stays
unchanged, even though the write path stores the bare id. -/
theorem whitespace_padded_marker_noop (env : Env) (e : Entry) (rest : List Entry)
    (httpOk : Bool) (w1 w2 vid t l : String)
    (hconf : missingRequired env = [])
    (hv : e.yt_videoid = some vid) (ht : e.title = some t) (hl : e.link = some l)
    (h1 : w1.data.all isWs = true) (h2 : w2.data.all isWs = true)
    (hvid : pyStrip vid = vid) :
    (main env (e :: rest) httpOk (some (w1 ++ vid ++ w2))).posts = [] ∧
    (main env (e :: rest) httpOk (some (w1 ++ vid ++ w2))).marker =
      some (w1 ++ vid ++ w2) ∧
    (main env (e :: rest) httpOk (some (w1 ++ vid ++ w2))).raised = none := by
  have hstrip : pyStrip (w1 ++ vid ++ w2) = vid := pyStrip_sandwich w1 vid w2 h1 h2 hvid
  unfold main
  simp only [hconf, hv, ht, hl]
  simp [hstrip]

theorem whitespace_padded_marker_noop_witness :
    (main envTest [entryTest] true (some ("  " ++ "xyz789" ++ "\n"))).posts = [] ∧
    (main envTest [entryTest] true (some ("  " ++ "xyz789" ++ "\n"))).marker =
      some ("  " ++ "xyz789" ++ "\n") ∧
    (main envTest [entryTest] true (some ("  " ++ "xyz789" ++ "\n"))).raised = none :=
  whitespace_padded_marker_noop envTest entryTest [] true "  " "\n" "xyz789"
    "My New Upload" "https://youtu.be/xyz789" (by decide) (by decide) (by decide)
    (by decide) (by decide) (by decide) (by decide)





end Notifier
